import Mathlib

/-!
Verification of the `lpp_facts` module (plugins/modules/lpp_facts.py):
a pipeline that builds an `lslpp -lacq` command line from the module
parameters, runs it, and parses its colon-separated stdout into a list of
fileset records.

The Python string primitives the module relies on (`str.strip`,
`str.lower`, `str.split`, `str.splitlines`, `int`) are modelled first;
then the command builder and the per-line record parser are translated
from the source.
-/

namespace LppFacts

/-- Characters treated as whitespace by Python's `str.strip()`
(`str.isspace`): ASCII whitespace, the C1 separators, NEL, NBSP and the
Unicode space separators. -/
def pyIsSpace (c : Char) : Bool :=
  c.toNat == 0x20 || (0x09 ≤ c.toNat && c.toNat ≤ 0x0d) ||
  (0x1c ≤ c.toNat && c.toNat ≤ 0x1f) || c.toNat == 0x85 ||
  c.toNat == 0xa0 || c.toNat == 0x1680 ||
  (0x2000 ≤ c.toNat && c.toNat ≤ 0x200a) ||
  c.toNat == 0x2028 || c.toNat == 0x2029 || c.toNat == 0x202f ||
  c.toNat == 0x205f || c.toNat == 0x3000

/-- Python `str.strip()`: drop leading and trailing whitespace. -/
def pyStrip (s : String) : String :=
  String.mk (((s.data.dropWhile pyIsSpace).reverse.dropWhile pyIsSpace).reverse)

/-- Lower-case one character (ASCII range; the fields this module
lower-cases are ASCII state codes). -/
def pyLowerChar (c : Char) : Char :=
  if c.toNat ≥ 0x41 ∧ c.toNat ≤ 0x5a then Char.ofNat (c.toNat + 0x20) else c

/-- Python `str.lower()` on the ASCII range. -/
def pyLower (s : String) : String :=
  String.mk (s.data.map pyLowerChar)

/-- Characters on which Python `str.splitlines()` breaks lines. -/
def pyIsLineBreak (c : Char) : Bool :=
  c.toNat == 0x0a || c.toNat == 0x0d || c.toNat == 0x0b || c.toNat == 0x0c ||
  c.toNat == 0x1c || c.toNat == 0x1d || c.toNat == 0x1e ||
  c.toNat == 0x85 || c.toNat == 0x2028 || c.toNat == 0x2029

/-- Worker for `pySplitlines`: `acc` holds the current line reversed. -/
def pySplitlinesAux (acc : List Char) : List Char → List (List Char)
  | [] => if acc.isEmpty then [] else [acc.reverse]
  | '\r' :: '\n' :: rest => acc.reverse :: pySplitlinesAux [] rest
  | c :: rest =>
      if pyIsLineBreak c then acc.reverse :: pySplitlinesAux [] rest
      else pySplitlinesAux (c :: acc) rest

/-- Python `str.splitlines()`: split on line boundaries (`\r\n` counts as
one boundary), with no trailing empty line for a trailing terminator. -/
def pySplitlines (s : String) : List String :=
  (pySplitlinesAux [] s.data).map String.mk

/-- Worker for `pySplitChar`: `acc` holds the current piece reversed. -/
def pySplitCharAux (sep : Char) (acc : List Char) : List Char → List (List Char)
  | [] => [acc.reverse]
  | c :: rest =>
      if c = sep then acc.reverse :: pySplitCharAux sep [] rest
      else pySplitCharAux sep (c :: acc) rest

/-- Python `str.split(sep)` for a one-character separator (the module
only splits on `':'` and `'.'`): always at least one piece, and the empty
string yields `[""]`. -/
def pySplitChar (sep : Char) (s : String) : List String :=
  (pySplitCharAux sep [] s.data).map String.mk

/-- Digit part of a Python base-10 integer literal: a nonempty run of
ASCII digits in which single underscores may separate digits. Returns the
value, or `none` if `cs` does not match. -/
def pyDigitpartAux (acc : Nat) : List Char → Option Nat
  | [] => some acc
  | '_' :: c :: rest =>
      if c.isDigit then pyDigitpartAux (acc * 10 + (c.toNat - 0x30)) rest
      else none
  | ['_'] => none
  | c :: rest =>
      if c.isDigit then pyDigitpartAux (acc * 10 + (c.toNat - 0x30)) rest
      else none

/-- A nonempty digit run (underscore-separated), as required after the
optional sign of a Python `int()` argument. -/
def pyDigitpart : List Char → Option Nat
  | [] => none
  | '_' :: _ => none
  | cs => pyDigitpartAux 0 cs

/-- Python `int(s)` for base 10 (ASCII digits): optional surrounding
whitespace, optional sign, then a digit run with optional single
underscores between digits. `none` models the `ValueError`. -/
def pyInt (s : String) : Option Int :=
  match (pyStrip s).data with
  | '+' :: rest => (pyDigitpart rest).map Int.ofNat
  | '-' :: rest => (pyDigitpart rest).map (fun n => -(n : Int))
  | cs => (pyDigitpart cs).map Int.ofNat

instance {ε α : Type} [DecidableEq ε] [DecidableEq α] :
    DecidableEq (Except ε α) := fun a b =>
  match a, b with
  | Except.ok x, Except.ok y =>
      if h : x = y then Decidable.isTrue (by simp [h])
      else Decidable.isFalse (by simp [h])
  | Except.ok _, Except.error _ => Decidable.isFalse (by simp)
  | Except.error _, Except.ok _ => Decidable.isFalse (by simp)
  | Except.error e, Except.error f =>
      if h : e = f then Decidable.isTrue (by simp [h])
      else Decidable.isFalse (by simp [h])

/-- A value stored in a fileset record: the module stores strings, the
boolean `True` (for `emgr_locked`), and one nested dict, the `vrmf`
dict `{ver, rel, mod, fix}` of parsed integers, flattened here into one
constructor. -/
inductive PVal where
  | s (v : String)
  | b (v : Bool)
  | vrmfD (ver rel md fx : Int)
deriving DecidableEq

/-- A fileset record: the Python dict as an association list in key
insertion order (all keys the module inserts are distinct). -/
abbrev Record := List (String × PVal)

/-- Python `dict` lookup on the association-list model. -/
def getKey (k : String) : Record → Option PVal
  | [] => none
  | (k', v) :: rest => if k = k' then some v else getKey k rest

/-- The keys of a record, in insertion order. -/
def keysOf (r : Record) : List String := r.map Prod.fst

/-- The module-level `LPP_TYPE` table. -/
def LPP_TYPE : List (String × String) :=
  [("I", "install"), ("M", "maintenance"), ("E", "enhancement"), ("F", "fix")]

/-- `LPP_TYPE.get(code, '')`: dict lookup with default `''`. -/
def lppTypeGet (code : String) : String :=
  match LPP_TYPE.find? (fun p => p.1 == code) with
  | some p => p.2
  | none => ""

/-- Lines 202-209 of the source: split `level` on `.`; when that yields
exactly four segments, parse each with `int()` (a failure raises
`ValueError`, modelled as `.error`); otherwise no `vrmf` entry. -/
def parseVrmf (level : String) : Except String (Option PVal) :=
  let vrmf := pySplitChar '.' level
  if vrmf.length = 4 then
    match pyInt (vrmf.getD 0 ""), pyInt (vrmf.getD 1 ""),
          pyInt (vrmf.getD 2 ""), pyInt (vrmf.getD 3 "") with
    | some v, some r, some m, some f =>
        .ok (some (PVal.vrmfD v r m f))
    | _, _, _, _ => .error "invalid literal for int() with base 10"
  else
    .ok none

/-- The record built from the eight stripped fields (lines 198-218 of the
source), given the already-computed optional `vrmf` entry; entries appear
in the source's insertion order. -/
def recordOf (f0 f1 f2 f3 f4 f5 f6 f7 : String) (vrmfEntry : Option PVal) :
    Record :=
  [("source", PVal.s f0), ("name", PVal.s f1), ("level", PVal.s f2)]
  ++ (match vrmfEntry with
      | some v => [("vrmf", v)]
      | none => [])
  ++ (if f3 ≠ "" then [("ptf", PVal.s f3)] else [])
  ++ [("state", PVal.s (pyLower f4))]
  ++ (if f5 ≠ "" then [("type", PVal.s (lppTypeGet f5))] else [])
  ++ [("description", PVal.s f6)]
  ++ (if f7 = "EFIXLOCKED" then [("emgr_locked", PVal.b true)] else [])

/-- Build one fileset record from the stripped field list (the source
indexes `fields[0]`..`fields[7]`; an `int()` failure while building the
`vrmf` entry aborts the whole run, so the record is never produced). -/
def mkFileset (fields : List String) : Except String Record :=
  match parseVrmf (fields.getD 2 "") with
  | .error e => .error e
  | .ok vrmfEntry =>
      .ok (recordOf (fields.getD 0 "") (fields.getD 1 "") (fields.getD 2 "")
            (fields.getD 3 "") (fields.getD 4 "") (fields.getD 5 "")
            (fields.getD 6 "") (fields.getD 7 "") vrmfEntry)

/-- Lines 192-220 for one line of stdout: split on `:`; fewer than eight
raw fields means the line is skipped (`.ok none`); otherwise every field
is stripped and one record is built (or the `ValueError` propagates). -/
def parseLine (line : String) : Except String (Option Record) :=
  let raw_fields := pySplitChar ':' line
  if raw_fields.length < 8 then .ok none
  else
    match mkFileset (raw_fields.map pyStrip) with
    | .error e => .error e
    | .ok r => .ok (some r)

/-- The `for line in stdout.splitlines()` loop over a list of lines:
records accumulate in line order; a `ValueError` aborts the run. -/
def parseLines : List String → Except String (List Record)
  | [] => .ok []
  | l :: ls =>
      match parseLine l with
      | .error e => .error e
      | .ok none => parseLines ls
      | .ok (some r) =>
          match parseLines ls with
          | .error e => .error e
          | .ok rs => .ok (r :: rs)

/-- The whole parsing stage applied to raw stdout text. -/
def parseStdout (stdout : String) : Except String (List Record) :=
  parseLines (pySplitlines stdout)

/-- The module parameters (`argument_spec`, lines 160-171): each of the
three option-typed parameters defaults to `None`. -/
structure Params where
  filesets : Option (List String)
  bundle : Option String
  path : Option String
  base_levels_only : Bool
deriving DecidableEq

/-- Python truthiness of an optional string parameter: `None` and `''`
are falsy. -/
def truthyStr : Option String → Bool
  | none => false
  | some s => !(s == "")

/-- Python truthiness of an optional list parameter: `None` and `[]` are
falsy. -/
def truthyList : Option (List String) → Bool
  | none => false
  | some l => !l.isEmpty

/-- Lines 175-185 of the source: the `lslpp` argument list. -/
def buildCmd (lslpp_path : String) (p : Params) : List String :=
  let cmd := [lslpp_path, "-lacq"]
  let cmd := if p.base_levels_only then cmd ++ ["-I"] else cmd
  let cmd := if truthyStr p.path then cmd ++ ["-R", p.path.getD ""] else cmd
  let cmd := if truthyStr p.bundle then cmd ++ ["-b", p.bundle.getD ""]
             else if truthyList p.filesets then cmd ++ p.filesets.getD []
             else cmd ++ ["all"]
  cmd

/-- Modelled from the spec: the boundary validation collaborator (the
`AnsibleModule` framework, not part of this repository's source)
enforcing `mutually_exclusive=[['filesets', 'bundle']]` — the request is
rejected exactly when both parameters are supplied. Returns `true` when
the request must fail. -/
def checkMutuallyExclusive (p : Params) : Bool :=
  p.filesets.isSome && p.bundle.isSome

/-- The result of `module.run_command`: `(rc, stdout, stderr)`. -/
abbrev CmdResult := Int × String × String

/-- One run of `main()` over an abstract external-command executor:
boundary validation first (fatal), then the command is built and run, and
its stdout parsed; the exit status is ignored (line 187: "Ignore errors
as lslpp might return 1 with -b"). -/
def mainModel (p : Params) (exec : List String → CmdResult) :
    Except String (List Record) :=
  if checkMutuallyExclusive p then
    .error "parameters are mutually exclusive: filesets|bundle"
  else
    let res := exec (buildCmd "lslpp" p)
    parseStdout res.2.1

/-- The version shape named by the spec: exactly four dot-separated
segments, each a non-empty run of decimal digits (a non-negative decimal
integer). Stated from the spec's words, to compare with what the code
actually accepts. -/
def specFourNonNegSegments (level : String) : Bool :=
  let segs := pySplitChar '.' level
  segs.length == 4 &&
    segs.all (fun t => !t.isEmpty && t.data.all Char.isDigit)

/-- The Query Builder as the claim words it: the fixed listing flags,
then `-I` if `baseLevelsOnly` is true, then the alternate-root flag and
path if `rootPath` is set, then the bundle flag and name if `bundle` is
set, otherwise the patterns if non-empty, otherwise the literal `all`.
Stated from the spec's words, to compare with `buildCmd`. -/
def buildCmdSpec (bin : String) (p : Params) : List String :=
  [bin, "-lacq"]
  ++ (if p.base_levels_only then ["-I"] else [])
  ++ (match p.path with
      | some pa => ["-R", pa]
      | none => [])
  ++ (match p.bundle with
      | some b => ["-b", b]
      | none =>
          match p.filesets with
          | some fs => if fs = [] then ["all"] else fs
          | none => ["all"])

/-- Positional selector when no (non-empty) bundle applies: the patterns
when supplied and non-empty, else the literal `all`. -/
def patternArgs (p : Params) : List String :=
  match p.filesets with
  | some fs => if fs = [] then ["all"] else fs
  | none => ["all"]

/-- Trailing selector arguments: the bundle flag and name when `bundle`
is supplied and non-empty, otherwise `patternArgs`. -/
def selectorArgs (p : Params) : List String :=
  match p.bundle with
  | some b => if b = "" then patternArgs p else ["-b", b]
  | none => patternArgs p

/-- The raw colon-separated fields of one stdout line. -/
def rawFields (line : String) : List String := pySplitChar ':' line

/-- The `i`-th stripped field of a line (`fields[i]` in the source). -/
def fieldAt (line : String) (i : Nat) : String :=
  pyStrip ((rawFields line).getD i "")

/-- The keys the module can ever insert into a record. -/
def allowedKeys : List String :=
  ["source", "name", "level", "vrmf", "ptf", "state", "type", "description",
   "emgr_locked"]

/-- The keys inserted unconditionally. -/
def mandatoryKeys : List String :=
  ["source", "name", "level", "state", "description"]

/-- The key-shape invariant of a record: every key is one of the nine the
module writes, the five unconditional keys are present, and
`emgr_locked`, when present, is `True`. -/
def keysInvariant (r : Record) : Prop :=
  (∀ k, k ∈ keysOf r → k ∈ allowedKeys) ∧
  (∀ k, k ∈ mandatoryKeys → k ∈ keysOf r) ∧
  (∀ v, getKey "emgr_locked" r = some v → v = PVal.b true)

example : pySplitChar ':' "a::b" = ["a", "", "b"] := by decide
example : pySplitChar ':' "" = [""] := by decide
example : pySplitChar ':' ":::::::" = ["", "", "", "", "", "", "", ""] := by
  decide
example : pyInt "123" = some 123 := by decide
example : pyInt " -4 " = some (-4) := by decide
example : pyInt "+7" = some 7 := by decide
example : pyInt "1_0" = some 10 := by decide
example : pyInt "" = none := by decide
example : pyInt "x" = none := by decide
example : pyInt "1__0" = none := by decide
example : pyInt "_1" = none := by decide
example : pyInt "1_" = none := by decide
example : pyStrip "  a b " = "a b" := by decide
example : pyLower "COMMITTED" = "committed" := by decide
example : pySplitlines "a\nb\r\nc\n" = ["a", "b", "c"] := by decide
example : pySplitlines "" = [] := by decide
example : pySplitlines "\n\n" = ["", ""] := by decide

example :
    parseLine "/etc/objrepos: bos.rte:7.2.3.0:U123456:APPLIED:I:Base OS::" =
      .ok (some
        [("source", PVal.s "/etc/objrepos"), ("name", PVal.s "bos.rte"),
         ("level", PVal.s "7.2.3.0"), ("vrmf", PVal.vrmfD 7 2 3 0),
         ("ptf", PVal.s "U123456"), ("state", PVal.s "applied"),
         ("type", PVal.s "install"), ("description", PVal.s "Base OS")]) := by
  decide

example : parseLine "some random text" = .ok none := by decide

example :
    parseLine "/e:bos.rte.lib:7.2.3.1::COMMITTED:M:Libs:EFIXLOCKED" =
      .ok (some
        [("source", PVal.s "/e"), ("name", PVal.s "bos.rte.lib"),
         ("level", PVal.s "7.2.3.1"), ("vrmf", PVal.vrmfD 7 2 3 1),
         ("state", PVal.s "committed"), ("type", PVal.s "maintenance"),
         ("description", PVal.s "Libs"), ("emgr_locked", PVal.b true)]) := by
  decide

example : parseLine "a:b:1.2.3.x:d:e:f:g:h" =
    .error "invalid literal for int() with base 10" := by decide

theorem getD_map_pyStrip (l : List String) (i : Nat) (h : i < l.length) :
    (l.map pyStrip).getD i "" = pyStrip (l.getD i "") := by
  show ((l.map pyStrip).get? i).getD "" = pyStrip ((l.get? i).getD "")
  rw [List.get?_map]
  rcases hg : l.get? i with _ | a
  · exact absurd (List.get?_eq_none.mp hg) (Nat.not_le.mpr h)
  · simp

theorem getD_congr_of_take_eq (l₁ l₂ : List String) (n i : Nat) (d : String)
    (h : l₁.take n = l₂.take n) (hi : i < n) :
    l₁.getD i d = l₂.getD i d := by
  show (l₁.get? i).getD d = (l₂.get? i).getD d
  rw [← List.get?_take hi (l := l₁), h, List.get?_take hi]

theorem parseLine_eq (line : String) :
    parseLine line =
      if (rawFields line).length < 8 then .ok none
      else
        match mkFileset ((rawFields line).map pyStrip) with
        | .error e => .error e
        | .ok r => .ok (some r) := rfl

theorem parseLine_of_short (line : String)
    (h : (rawFields line).length < 8) : parseLine line = .ok none := by
  rw [parseLine_eq, if_pos h]

theorem parseLine_of_ge8 (line : String)
    (h : 8 ≤ (rawFields line).length) :
    parseLine line =
      match mkFileset ((rawFields line).map pyStrip) with
      | .error e => .error e
      | .ok r => .ok (some r) := by
  rw [parseLine_eq, if_neg (Nat.not_lt.mpr h)]

theorem mkFileset_eq (fields : List String) :
    mkFileset fields =
      match parseVrmf (fields.getD 2 "") with
      | .error e => .error e
      | .ok vrmfEntry =>
          .ok (recordOf (fields.getD 0 "") (fields.getD 1 "")
                (fields.getD 2 "") (fields.getD 3 "") (fields.getD 4 "")
                (fields.getD 5 "") (fields.getD 6 "") (fields.getD 7 "")
                vrmfEntry) := rfl

theorem mkFileset_congr (fields₁ fields₂ : List String)
    (h : ∀ i, i < 8 → fields₁.getD i "" = fields₂.getD i "") :
    mkFileset fields₁ = mkFileset fields₂ := by
  have h0 := h 0 (by norm_num); have h1 := h 1 (by norm_num)
  have h2 := h 2 (by norm_num); have h3 := h 3 (by norm_num)
  have h4 := h 4 (by norm_num); have h5 := h 5 (by norm_num)
  have h6 := h 6 (by norm_num); have h7 := h 7 (by norm_num)
  rw [mkFileset_eq, mkFileset_eq, h0, h1, h2, h3, h4, h5, h6, h7]

theorem parseLine_ok_some (line : String) (r : Record)
    (h : parseLine line = .ok (some r)) :
    8 ≤ (rawFields line).length ∧
    ∃ vE, parseVrmf (fieldAt line 2) = .ok vE ∧
      r = recordOf (fieldAt line 0) (fieldAt line 1) (fieldAt line 2)
            (fieldAt line 3) (fieldAt line 4) (fieldAt line 5)
            (fieldAt line 6) (fieldAt line 7) vE := by
  by_cases hlen : (rawFields line).length < 8
  · rw [parseLine_of_short line hlen] at h
    cases h
  · have hge : 8 ≤ (rawFields line).length := Nat.not_lt.mp hlen
    refine ⟨hge, ?_⟩
    rw [parseLine_of_ge8 line hge] at h
    have hfa : ∀ i, i < 8 →
        ((rawFields line).map pyStrip).getD i "" = fieldAt line i :=
      fun i hi => getD_map_pyStrip _ i (Nat.lt_of_lt_of_le hi hge)
    rw [mkFileset_eq, hfa 0 (by norm_num), hfa 1 (by norm_num),
        hfa 2 (by norm_num), hfa 3 (by norm_num), hfa 4 (by norm_num),
        hfa 5 (by norm_num), hfa 6 (by norm_num), hfa 7 (by norm_num)] at h
    cases hv : parseVrmf (fieldAt line 2) with
    | error e => rw [hv] at h; cases h
    | ok vE =>
        rw [hv] at h
        refine ⟨vE, rfl, ?_⟩
        injection h with h'
        injection h' with h''
        exact h''.symm

theorem parseLine_of_vrmf_ok (line : String) (vE : Option PVal)
    (hge : 8 ≤ (rawFields line).length)
    (hv : parseVrmf (fieldAt line 2) = .ok vE) :
    parseLine line = .ok (some
      (recordOf (fieldAt line 0) (fieldAt line 1) (fieldAt line 2)
        (fieldAt line 3) (fieldAt line 4) (fieldAt line 5)
        (fieldAt line 6) (fieldAt line 7) vE)) := by
  have hfa : ∀ i, i < 8 →
      ((rawFields line).map pyStrip).getD i "" = fieldAt line i :=
    fun i hi => getD_map_pyStrip _ i (Nat.lt_of_lt_of_le hi hge)
  rw [parseLine_of_ge8 line hge, mkFileset_eq, hfa 0 (by norm_num),
      hfa 1 (by norm_num), hfa 2 (by norm_num), hfa 3 (by norm_num),
      hfa 4 (by norm_num), hfa 5 (by norm_num), hfa 6 (by norm_num),
      hfa 7 (by norm_num), hv]

theorem parseLine_of_vrmf_error (line : String) (e : String)
    (hge : 8 ≤ (rawFields line).length)
    (hv : parseVrmf (fieldAt line 2) = .error e) :
    parseLine line = .error e := by
  have hfa : ∀ i, i < 8 →
      ((rawFields line).map pyStrip).getD i "" = fieldAt line i :=
    fun i hi => getD_map_pyStrip _ i (Nat.lt_of_lt_of_le hi hge)
  rw [parseLine_of_ge8 line hge, mkFileset_eq, hfa 2 (by norm_num), hv]

theorem getKey_recordOf_source (f0 f1 f2 f3 f4 f5 f6 f7 : String)
    (vE : Option PVal) :
    getKey "source" (recordOf f0 f1 f2 f3 f4 f5 f6 f7 vE) =
      some (PVal.s f0) := by
  rcases vE with _ | v <;> by_cases h3 : f3 = "" <;> by_cases h5 : f5 = "" <;>
    by_cases h7 : f7 = "EFIXLOCKED" <;> simp [recordOf, getKey, h3, h5, h7]

theorem getKey_recordOf_name (f0 f1 f2 f3 f4 f5 f6 f7 : String)
    (vE : Option PVal) :
    getKey "name" (recordOf f0 f1 f2 f3 f4 f5 f6 f7 vE) =
      some (PVal.s f1) := by
  rcases vE with _ | v <;> by_cases h3 : f3 = "" <;> by_cases h5 : f5 = "" <;>
    by_cases h7 : f7 = "EFIXLOCKED" <;> simp [recordOf, getKey, h3, h5, h7]

theorem getKey_recordOf_level (f0 f1 f2 f3 f4 f5 f6 f7 : String)
    (vE : Option PVal) :
    getKey "level" (recordOf f0 f1 f2 f3 f4 f5 f6 f7 vE) =
      some (PVal.s f2) := by
  rcases vE with _ | v <;> by_cases h3 : f3 = "" <;> by_cases h5 : f5 = "" <;>
    by_cases h7 : f7 = "EFIXLOCKED" <;> simp [recordOf, getKey, h3, h5, h7]

theorem getKey_recordOf_vrmf (f0 f1 f2 f3 f4 f5 f6 f7 : String)
    (vE : Option PVal) :
    getKey "vrmf" (recordOf f0 f1 f2 f3 f4 f5 f6 f7 vE) = vE := by
  rcases vE with _ | v <;> by_cases h3 : f3 = "" <;> by_cases h5 : f5 = "" <;>
    by_cases h7 : f7 = "EFIXLOCKED" <;> simp [recordOf, getKey, h3, h5, h7]

theorem getKey_recordOf_ptf (f0 f1 f2 f3 f4 f5 f6 f7 : String)
    (vE : Option PVal) :
    getKey "ptf" (recordOf f0 f1 f2 f3 f4 f5 f6 f7 vE) =
      if f3 = "" then none else some (PVal.s f3) := by
  rcases vE with _ | v <;> by_cases h3 : f3 = "" <;> by_cases h5 : f5 = "" <;>
    by_cases h7 : f7 = "EFIXLOCKED" <;> simp [recordOf, getKey, h3, h5, h7]

theorem getKey_recordOf_state (f0 f1 f2 f3 f4 f5 f6 f7 : String)
    (vE : Option PVal) :
    getKey "state" (recordOf f0 f1 f2 f3 f4 f5 f6 f7 vE) =
      some (PVal.s (pyLower f4)) := by
  rcases vE with _ | v <;> by_cases h3 : f3 = "" <;> by_cases h5 : f5 = "" <;>
    by_cases h7 : f7 = "EFIXLOCKED" <;> simp [recordOf, getKey, h3, h5, h7]

theorem getKey_recordOf_type (f0 f1 f2 f3 f4 f5 f6 f7 : String)
    (vE : Option PVal) :
    getKey "type" (recordOf f0 f1 f2 f3 f4 f5 f6 f7 vE) =
      if f5 = "" then none else some (PVal.s (lppTypeGet f5)) := by
  rcases vE with _ | v <;> by_cases h3 : f3 = "" <;> by_cases h5 : f5 = "" <;>
    by_cases h7 : f7 = "EFIXLOCKED" <;> simp [recordOf, getKey, h3, h5, h7]

theorem getKey_recordOf_description (f0 f1 f2 f3 f4 f5 f6 f7 : String)
    (vE : Option PVal) :
    getKey "description" (recordOf f0 f1 f2 f3 f4 f5 f6 f7 vE) =
      some (PVal.s f6) := by
  rcases vE with _ | v <;> by_cases h3 : f3 = "" <;> by_cases h5 : f5 = "" <;>
    by_cases h7 : f7 = "EFIXLOCKED" <;> simp [recordOf, getKey, h3, h5, h7]

theorem getKey_recordOf_emgr_locked (f0 f1 f2 f3 f4 f5 f6 f7 : String)
    (vE : Option PVal) :
    getKey "emgr_locked" (recordOf f0 f1 f2 f3 f4 f5 f6 f7 vE) =
      if f7 = "EFIXLOCKED" then some (PVal.b true) else none := by
  rcases vE with _ | v <;> by_cases h3 : f3 = "" <;> by_cases h5 : f5 = "" <;>
    by_cases h7 : f7 = "EFIXLOCKED" <;> simp [recordOf, getKey, h3, h5, h7]

theorem keysInvariant_recordOf (f0 f1 f2 f3 f4 f5 f6 f7 : String)
    (vE : Option PVal) :
    keysInvariant (recordOf f0 f1 f2 f3 f4 f5 f6 f7 vE) := by
  refine ⟨?_, ?_, ?_⟩
  · intro k hk
    rcases vE with _ | v <;> by_cases h3 : f3 = "" <;>
      by_cases h5 : f5 = "" <;> by_cases h7 : f7 = "EFIXLOCKED" <;>
      simp [recordOf, keysOf, h3, h5, h7] at hk <;>
      simp [allowedKeys] <;> tauto
  · intro k hk
    rcases vE with _ | v <;> by_cases h3 : f3 = "" <;>
      by_cases h5 : f5 = "" <;> by_cases h7 : f7 = "EFIXLOCKED" <;>
      simp [mandatoryKeys] at hk <;>
      rcases hk with h | h | h | h | h <;>
      simp [recordOf, keysOf, h3, h5, h7, h]
  · intro v hv
    rw [getKey_recordOf_emgr_locked] at hv
    by_cases h7 : f7 = "EFIXLOCKED"
    · rw [if_pos h7] at hv
      injection hv with hv'
      exact hv'.symm
    · rw [if_neg h7] at hv
      cases hv

theorem parseLines_ok (ls : List String) (rs : List Record)
    (h : parseLines ls = .ok rs) :
    rs = ls.filterMap (fun l =>
      match parseLine l with
      | .ok (some r) => some r
      | _ => none) := by
  induction ls generalizing rs with
  | nil =>
      injection h with h'
      simp [h'.symm]
  | cons l ls ih =>
      unfold parseLines at h
      cases hp : parseLine l with
      | error e => rw [hp] at h; cases h
      | ok o =>
          rw [hp] at h
          cases o with
          | none =>
              simp only [List.filterMap_cons, hp]
              exact ih rs h
          | some r =>
              cases hrest : parseLines ls with
              | error e => rw [hrest] at h; cases h
              | ok rs' =>
                  rw [hrest] at h
                  injection h with h'
                  simp only [List.filterMap_cons, hp]
                  rw [← h', ← ih rs' hrest]

theorem mem_parseLines (ls : List String) (rs : List Record) (r : Record)
    (h : parseLines ls = .ok rs) (hr : r ∈ rs) :
    ∃ l, l ∈ ls ∧ parseLine l = .ok (some r) := by
  rw [parseLines_ok ls rs h] at hr
  rcases List.mem_filterMap.mp hr with ⟨l, hl, hfl⟩
  refine ⟨l, hl, ?_⟩
  cases hp : parseLine l with
  | error e => rw [hp] at hfl; cases hfl
  | ok o =>
      rw [hp] at hfl
      cases o with
      | none => cases hfl
      | some r' => injection hfl with h'; rw [h']

theorem parseLines_of_all_short (ls : List String)
    (h : ∀ l, l ∈ ls → (rawFields l).length < 8) :
    parseLines ls = .ok [] := by
  induction ls with
  | nil => rfl
  | cons l ls ih =>
      unfold parseLines
      rw [parseLine_of_short l (h l (List.mem_cons_self l ls)),
          ih (fun x hx => h x (List.mem_cons_of_mem l hx))]

/-- C3: for every stdout line that yields a record, the `emgr_locked`
key is present (with value `True`) iff the stripped eighth field is
exactly `"EFIXLOCKED"`; for any other value, including the empty string,
the key is absent, and it is never present with any value other than
`True`. -/
theorem c3_emgr_locked_sentinel (line : String) (r : Record)
    (h : parseLine line = .ok (some r)) :
    (getKey "emgr_locked" r = some (PVal.b true) ↔
      fieldAt line 7 = "EFIXLOCKED")
    ∧ (fieldAt line 7 ≠ "EFIXLOCKED" → getKey "emgr_locked" r = none)
    ∧ (∀ v, getKey "emgr_locked" r = some v → v = PVal.b true) := by
  obtain ⟨-, vE, -, hrec⟩ := parseLine_ok_some line r h
  subst hrec
  refine ⟨?_, ?_, ?_⟩ <;> rw [getKey_recordOf_emgr_locked] <;>
    by_cases h7 : fieldAt line 7 = "EFIXLOCKED" <;> simp [h7]

/-- Witness for C3 on the line `"a:b:c:d:e:f:g:EFIXLOCKED"`. -/
theorem c3_emgr_locked_sentinel_witness :
    (getKey "emgr_locked"
        [("source", PVal.s "a"), ("name", PVal.s "b"), ("level", PVal.s "c"),
         ("ptf", PVal.s "d"), ("state", PVal.s "e"), ("type", PVal.s ""),
         ("description", PVal.s "g"), ("emgr_locked", PVal.b true)] =
      some (PVal.b true) ↔
        fieldAt "a:b:c:d:e:f:g:EFIXLOCKED" 7 = "EFIXLOCKED")
    ∧ (fieldAt "a:b:c:d:e:f:g:EFIXLOCKED" 7 ≠ "EFIXLOCKED" →
        getKey "emgr_locked"
          [("source", PVal.s "a"), ("name", PVal.s "b"), ("level", PVal.s "c"),
           ("ptf", PVal.s "d"), ("state", PVal.s "e"), ("type", PVal.s ""),
           ("description", PVal.s "g"), ("emgr_locked", PVal.b true)] = none)
    ∧ (∀ v, getKey "emgr_locked"
          [("source", PVal.s "a"), ("name", PVal.s "b"), ("level", PVal.s "c"),
           ("ptf", PVal.s "d"), ("state", PVal.s "e"), ("type", PVal.s ""),
           ("description", PVal.s "g"), ("emgr_locked", PVal.b true)] =
            some v → v = PVal.b true) :=
  c3_emgr_locked_sentinel "a:b:c:d:e:f:g:EFIXLOCKED" _ (by decide)

/-- C4: for every stdout line that yields a record, the `type` key is
present iff the stripped sixth field is non-empty, in which case its
value is the `LPP_TYPE` label of the code, `I/M/E/F` mapping to
`install/maintenance/enhancement/fix` and every other code to the empty
string. -/
theorem c4_type_mapping (line : String) (r : Record)
    (h : parseLine line = .ok (some r)) :
    getKey "type" r =
      (if fieldAt line 5 = "" then none
       else some (PVal.s (lppTypeGet (fieldAt line 5))))
    ∧ lppTypeGet "I" = "install" ∧ lppTypeGet "M" = "maintenance"
    ∧ lppTypeGet "E" = "enhancement" ∧ lppTypeGet "F" = "fix"
    ∧ ∀ c, c ∉ ["I", "M", "E", "F"] → lppTypeGet c = "" := by
  obtain ⟨-, vE, -, hrec⟩ := parseLine_ok_some line r h
  subst hrec
  refine ⟨getKey_recordOf_type _ _ _ _ _ _ _ _ _, by decide, by decide,
    by decide, by decide, ?_⟩
  intro c hc
  simp only [List.mem_cons, List.not_mem_nil, or_false, not_or] at hc
  obtain ⟨h1, h2, h3, h4⟩ := hc
  have e1 : ("I" == c) = false := beq_eq_false_iff_ne.mpr (Ne.symm h1)
  have e2 : ("M" == c) = false := beq_eq_false_iff_ne.mpr (Ne.symm h2)
  have e3 : ("E" == c) = false := beq_eq_false_iff_ne.mpr (Ne.symm h3)
  have e4 : ("F" == c) = false := beq_eq_false_iff_ne.mpr (Ne.symm h4)
  simp [lppTypeGet, LPP_TYPE, List.find?, e1, e2, e3, e4]

/-- Witness for C4 on the line `"a:b:c:d:e:Z:g:h"` (unknown code `Z`). -/
theorem c4_type_mapping_witness :
    getKey "type"
      [("source", PVal.s "a"), ("name", PVal.s "b"), ("level", PVal.s "c"),
       ("ptf", PVal.s "d"), ("state", PVal.s "e"), ("type", PVal.s ""),
       ("description", PVal.s "g")] =
      (if fieldAt "a:b:c:d:e:Z:g:h" 5 = "" then none
       else some (PVal.s (lppTypeGet (fieldAt "a:b:c:d:e:Z:g:h" 5))))
    ∧ lppTypeGet "I" = "install" ∧ lppTypeGet "M" = "maintenance"
    ∧ lppTypeGet "E" = "enhancement" ∧ lppTypeGet "F" = "fix"
    ∧ ∀ c, c ∉ ["I", "M", "E", "F"] → lppTypeGet c = "" :=
  c4_type_mapping "a:b:c:d:e:Z:g:h" _ (by decide)

/-- C8: for every stdout line that yields a record, the `state` key is
always present and its value is the stripped fifth field lower-cased,
with no validation against any state enumeration. -/
theorem c8_state_passthrough (line : String) (r : Record)
    (h : parseLine line = .ok (some r)) :
    getKey "state" r = some (PVal.s (pyLower (fieldAt line 4))) := by
  obtain ⟨-, vE, -, hrec⟩ := parseLine_ok_some line r h
  subst hrec
  exact getKey_recordOf_state _ _ _ _ _ _ _ _ _

/-- Witness for C8 on a line whose fifth field `NOTASTATE` is not in the
documented enumeration (and is passed through regardless). -/
theorem c8_state_passthrough_witness :
    getKey "state"
      [("source", PVal.s "a"), ("name", PVal.s "b"), ("level", PVal.s "c"),
       ("ptf", PVal.s "d"), ("state", PVal.s "notastate"),
       ("type", PVal.s "install"), ("description", PVal.s "g")] =
      some (PVal.s (pyLower (fieldAt "a:b:c:d: NOTASTATE :I:g:h" 4))) :=
  c8_state_passthrough "a:b:c:d: NOTASTATE :I:g:h" _ (by decide)

/-- C10: the line of exactly seven colons splits into eight empty raw
fields and yields the record with exactly the five mandatory keys, each
mapped to the empty string (state included), and none of the optional
keys. -/
theorem c10_all_empty_fields :
    (rawFields ":::::::").length = 8 ∧
    parseStdout ":::::::" = .ok
      [[("source", PVal.s ""), ("name", PVal.s ""), ("level", PVal.s ""),
        ("state", PVal.s ""), ("description", PVal.s "")]] := by decide

/-- C6: whenever both `filesets` and `bundle` are supplied, the run
fails with the mutual-exclusion error regardless of the other
parameters, and the outcome does not depend on the external command
executor at all (so no external command contributes to it); neither
criterion is silently preferred. -/
theorem c6_mutually_exclusive (p : Params)
    (exec₁ exec₂ : List String → CmdResult)
    (hf : p.filesets ≠ none) (hb : p.bundle ≠ none) :
    mainModel p exec₁ =
      .error "parameters are mutually exclusive: filesets|bundle"
    ∧ mainModel p exec₁ = mainModel p exec₂ := by
  have hc : checkMutuallyExclusive p = true := by
    rcases p with ⟨fs, b, pa, bl⟩
    rcases fs with _ | fs
    · exact absurd rfl hf
    rcases b with _ | b
    · exact absurd rfl hb
    rfl
  constructor <;> simp [mainModel, hc]

/-- Witness for C6: `filesets=["bos.rte"]`, `bundle="Server"`, two
executors with different outputs and exit statuses. -/
theorem c6_mutually_exclusive_witness :
    mainModel ⟨some ["bos.rte"], some "Server", none, false⟩
        (fun _ => (0, "a:b:c:d:e:f:g:h", "")) =
      .error "parameters are mutually exclusive: filesets|bundle"
    ∧ mainModel ⟨some ["bos.rte"], some "Server", none, false⟩
        (fun _ => (0, "a:b:c:d:e:f:g:h", "")) =
      mainModel ⟨some ["bos.rte"], some "Server", none, false⟩
        (fun _ => (1, "", "err")) :=
  c6_mutually_exclusive ⟨some ["bos.rte"], some "Server", none, false⟩
    (fun _ => (0, "a:b:c:d:e:f:g:h", "")) (fun _ => (1, "", "err"))
    (by decide) (by decide)

/-- C7: when validation passes, the run's outcome is
`parseStdout` of the executor's stdout alone — the exit status and
stderr never influence it (a non-zero status is non-fatal) — and stdout
with no eight-field line parses to the empty record list, not an
error. -/
theorem c7_exit_status_ignored :
    (∀ p exec, checkMutuallyExclusive p = false →
        mainModel p exec = parseStdout (exec (buildCmd "lslpp" p)).2.1)
    ∧ (∀ s, (∀ l, l ∈ pySplitlines s → (rawFields l).length < 8) →
        parseStdout s = .ok []) := by
  constructor
  · intro p exec hc
    simp [mainModel, hc]
  · intro s hs
    exact parseLines_of_all_short (pySplitlines s) hs

/-- Witness for C7: a failing executor (`rc = 1`) whose stdout has no
parseable line still yields `ok []`. -/
theorem c7_exit_status_ignored_witness :
    mainModel ⟨none, none, none, false⟩ (fun _ => (1, "lslpp: not found", "e")) =
      parseStdout ((fun (_ : List String) => ((1 : Int), "lslpp: not found", "e"))
        (buildCmd "lslpp" ⟨none, none, none, false⟩)).2.1
    ∧ parseStdout "lslpp: not found" = .ok [] :=
  ⟨c7_exit_status_ignored.1 ⟨none, none, none, false⟩
      (fun _ => (1, "lslpp: not found", "e")) (by decide),
   c7_exit_status_ignored.2 "lslpp: not found" (by decide)⟩

/-- C9: every record the pipeline produces has only the nine known keys,
always contains the five mandatory ones, carries `emgr_locked` only with
value `True`, and comes from a stdout line whose stripped fourth field
is non-empty exactly when the record has a `ptf` key. -/
theorem c9_record_key_shape (stdout : String) (res : List Record)
    (r : Record) (h : parseStdout stdout = .ok res) (hr : r ∈ res) :
    keysInvariant r ∧
      ∃ line, line ∈ pySplitlines stdout ∧ parseLine line = .ok (some r) ∧
        ((getKey "ptf" r).isSome ↔ fieldAt line 3 ≠ "") := by
  obtain ⟨l, hl, hpl⟩ := mem_parseLines (pySplitlines stdout) res r h hr
  obtain ⟨-, vE, -, hrec⟩ := parseLine_ok_some l r hpl
  subst hrec
  refine ⟨keysInvariant_recordOf _ _ _ _ _ _ _ _ _, l, hl, hpl, ?_⟩
  rw [getKey_recordOf_ptf]
  by_cases h3 : fieldAt l 3 = "" <;> simp [h3]

/-- Witness for C9 on the one-line stdout `"s:n:l:p:S:I:d:"`. -/
theorem c9_record_key_shape_witness :
    keysInvariant
      [("source", PVal.s "s"), ("name", PVal.s "n"), ("level", PVal.s "l"),
       ("ptf", PVal.s "p"), ("state", PVal.s "s"), ("type", PVal.s "install"),
       ("description", PVal.s "d")] ∧
    ∃ line, line ∈ pySplitlines "s:n:l:p:S:I:d:" ∧
      parseLine line = .ok (some
        [("source", PVal.s "s"), ("name", PVal.s "n"), ("level", PVal.s "l"),
         ("ptf", PVal.s "p"), ("state", PVal.s "s"),
         ("type", PVal.s "install"), ("description", PVal.s "d")]) ∧
      ((getKey "ptf"
          [("source", PVal.s "s"), ("name", PVal.s "n"), ("level", PVal.s "l"),
           ("ptf", PVal.s "p"), ("state", PVal.s "s"),
           ("type", PVal.s "install"), ("description", PVal.s "d")]).isSome ↔
        fieldAt line 3 ≠ "") :=
  c9_record_key_shape "s:n:l:p:S:I:d:"
    [[("source", PVal.s "s"), ("name", PVal.s "n"), ("level", PVal.s "l"),
      ("ptf", PVal.s "p"), ("state", PVal.s "s"), ("type", PVal.s "install"),
      ("description", PVal.s "d")]]
    [("source", PVal.s "s"), ("name", PVal.s "n"), ("level", PVal.s "l"),
     ("ptf", PVal.s "p"), ("state", PVal.s "s"), ("type", PVal.s "install"),
     ("description", PVal.s "d")] (by decide) (by decide)

/-- C1 counterexample: the eight-field line `"a:b:1.2.3.x:d:e:f:g:h"`
does not produce a record — its level splits into four dot-separated
segments and `int("x")` raises, so the run aborts with an error — so
"lines with eight or more fields produce exactly one record" fails as
stated. -/
theorem c1_counterexample :
    (rawFields "a:b:1.2.3.x:d:e:f:g:h").length = 8 ∧
    parseLines ["a:b:1.2.3.x:d:e:f:g:h"] =
      .error "invalid literal for int() with base 10" := by decide

/-- C1 (amended): a line with fewer than eight raw colon-separated
fields yields no record and no error; a line with eight or more fields
yields exactly one record (the one built from its stripped fields)
whenever the version-tuple parse does not fault, and aborts the run
with exactly the version-tuple parse's error when it does fault (so
the abort happens precisely on a fault, never otherwise); the record
depends only on the first eight fields; and the record sequence is the
source lines in order, each contributing its record. -/
theorem c1_line_record_correspondence :
    (∀ line, (rawFields line).length < 8 → parseLine line = .ok none)
    ∧ (∀ line vE, 8 ≤ (rawFields line).length →
        parseVrmf (fieldAt line 2) = .ok vE →
        parseLine line = .ok (some
          (recordOf (fieldAt line 0) (fieldAt line 1) (fieldAt line 2)
            (fieldAt line 3) (fieldAt line 4) (fieldAt line 5)
            (fieldAt line 6) (fieldAt line 7) vE)))
    ∧ (∀ line e, 8 ≤ (rawFields line).length →
        parseVrmf (fieldAt line 2) = .error e →
        parseLine line = .error e)
    ∧ (∀ l₁ l₂, 8 ≤ (rawFields l₁).length → 8 ≤ (rawFields l₂).length →
        (rawFields l₁).take 8 = (rawFields l₂).take 8 →
        parseLine l₁ = parseLine l₂)
    ∧ (∀ lines rs, parseLines lines = .ok rs →
        rs = lines.filterMap (fun l =>
          match parseLine l with
          | .ok (some r) => some r
          | _ => none)) := by
  refine ⟨parseLine_of_short, ?_, ?_, ?_, parseLines_ok⟩
  · intro line vE hge hv
    exact parseLine_of_vrmf_ok line vE hge hv
  · intro line e hge hv
    exact parseLine_of_vrmf_error line e hge hv
  · intro l₁ l₂ h₁ h₂ htake
    rw [parseLine_of_ge8 l₁ h₁, parseLine_of_ge8 l₂ h₂,
      mkFileset_congr ((rawFields l₁).map pyStrip)
        ((rawFields l₂).map pyStrip) ?_]
    intro i hi
    rw [getD_map_pyStrip _ i (Nat.lt_of_lt_of_le hi h₁),
        getD_map_pyStrip _ i (Nat.lt_of_lt_of_le hi h₂),
        getD_congr_of_take_eq (rawFields l₁) (rawFields l₂) 8 i "" htake hi]

/-- Witness for C1 (amended): a short line, a non-faulting eight-field
line (yielding its record), a faulting eight-field line (yielding the
`int()` error), a pair differing only beyond the eighth field, and a
two-line stdout. -/
theorem c1_line_record_correspondence_witness :
    parseLine "junk line" = .ok none
    ∧ parseLine ":::::::" = .ok (some
        (recordOf (fieldAt ":::::::" 0) (fieldAt ":::::::" 1)
          (fieldAt ":::::::" 2) (fieldAt ":::::::" 3) (fieldAt ":::::::" 4)
          (fieldAt ":::::::" 5) (fieldAt ":::::::" 6) (fieldAt ":::::::" 7)
          none))
    ∧ parseLine "a:b:1.2.3.x:d:e:f:g:h" =
        .error "invalid literal for int() with base 10"
    ∧ parseLine "a:b:c:d:e:f:g:h" = parseLine "a:b:c:d:e:f:g:h:x:y"
    ∧ [[("source", PVal.s ""), ("name", PVal.s ""), ("level", PVal.s ""),
        ("state", PVal.s ""), ("description", PVal.s "")]] =
        ["junk line", ":::::::"].filterMap (fun l =>
          match parseLine l with
          | .ok (some r) => some r
          | _ => none) :=
  ⟨c1_line_record_correspondence.1 "junk line" (by decide),
   c1_line_record_correspondence.2.1 ":::::::" none (by decide) (by decide),
   c1_line_record_correspondence.2.2.1 "a:b:1.2.3.x:d:e:f:g:h"
     "invalid literal for int() with base 10" (by decide) (by decide),
   c1_line_record_correspondence.2.2.2.1 "a:b:c:d:e:f:g:h"
     "a:b:c:d:e:f:g:h:x:y" (by decide) (by decide) (by decide),
   c1_line_record_correspondence.2.2.2.2 ["junk line", ":::::::"]
     [[("source", PVal.s ""), ("name", PVal.s ""), ("level", PVal.s ""),
       ("state", PVal.s ""), ("description", PVal.s "")]] (by decide)⟩

/-- C2 counterexample: the level `"1.2.3.-4"` does not consist of four
non-negative decimal-integer segments, yet on the eight-field line
`"a:b:1.2.3.-4:::::"` the code stores a `vrmf` entry (with `fix = -4`),
because `int()` accepts signed segments: the claimed "present if and
only if" fails as stated. -/
theorem c2_counterexample :
    specFourNonNegSegments "1.2.3.-4" = false ∧
    parseLine "a:b:1.2.3.-4:::::" =
      .ok (some
        [("source", PVal.s "a"), ("name", PVal.s "b"),
         ("level", PVal.s "1.2.3.-4"), ("vrmf", PVal.vrmfD 1 2 3 (-4)),
         ("state", PVal.s ""), ("description", PVal.s "")]) := by decide

/-- C2 (amended): for every eight-or-more-field line, `vrmf` is present
iff the stripped level splits on `.` into exactly four segments each
accepted by Python `int()` (signed segments included), in which case it
holds the four parsed integers in order; a level not of four segments
yields a record without `vrmf`; and an `int()` failure on a
four-segment level aborts the run as a fault. -/
theorem parseVrmf_eq (level : String) :
    parseVrmf level =
      if (pySplitChar '.' level).length = 4 then
        match pyInt ((pySplitChar '.' level).getD 0 ""),
              pyInt ((pySplitChar '.' level).getD 1 ""),
              pyInt ((pySplitChar '.' level).getD 2 ""),
              pyInt ((pySplitChar '.' level).getD 3 "") with
        | some v, some r, some m, some f =>
            .ok (some (PVal.vrmfD v r m f))
        | _, _, _, _ => .error "invalid literal for int() with base 10"
      else .ok none := rfl

theorem vrmf_match_error (g0 g1 g2 g3 : Option Int)
    (h : g0 = none ∨ g1 = none ∨ g2 = none ∨ g3 = none) :
    (match g0, g1, g2, g3 with
     | some v, some r, some m, some f =>
         (Except.ok (some (PVal.vrmfD v r m f)) :
           Except String (Option PVal))
     | _, _, _, _ => .error "invalid literal for int() with base 10") =
    .error "invalid literal for int() with base 10" := by
  rcases g0 with _ | a <;> rcases g1 with _ | b <;> rcases g2 with _ | c <;>
    rcases g3 with _ | d <;> simp_all

theorem c2_vrmf_from_level (line : String)
    (h8 : 8 ≤ (rawFields line).length) :
    ((pySplitChar '.' (fieldAt line 2)).length ≠ 4 →
        ∃ r, parseLine line = .ok (some r) ∧ getKey "vrmf" r = none)
    ∧ ((pySplitChar '.' (fieldAt line 2)).length = 4 →
        ∀ v1 v2 v3 v4 : Int,
          pyInt ((pySplitChar '.' (fieldAt line 2)).getD 0 "") = some v1 →
          pyInt ((pySplitChar '.' (fieldAt line 2)).getD 1 "") = some v2 →
          pyInt ((pySplitChar '.' (fieldAt line 2)).getD 2 "") = some v3 →
          pyInt ((pySplitChar '.' (fieldAt line 2)).getD 3 "") = some v4 →
          ∃ r, parseLine line = .ok (some r) ∧
            getKey "vrmf" r = some (PVal.vrmfD v1 v2 v3 v4))
    ∧ ((pySplitChar '.' (fieldAt line 2)).length = 4 →
        (pyInt ((pySplitChar '.' (fieldAt line 2)).getD 0 "") = none ∨
         pyInt ((pySplitChar '.' (fieldAt line 2)).getD 1 "") = none ∨
         pyInt ((pySplitChar '.' (fieldAt line 2)).getD 2 "") = none ∨
         pyInt ((pySplitChar '.' (fieldAt line 2)).getD 3 "") = none) →
        ∃ e, parseLine line = .error e) := by
  refine ⟨?_, ?_, ?_⟩
  · intro hlen
    have hv : parseVrmf (fieldAt line 2) = .ok none := by
      rw [parseVrmf_eq, if_neg hlen]
    exact ⟨_, parseLine_of_vrmf_ok line none h8 hv,
      getKey_recordOf_vrmf _ _ _ _ _ _ _ _ _⟩
  · intro hlen v1 v2 v3 v4 hv1 hv2 hv3 hv4
    have hv : parseVrmf (fieldAt line 2) =
        .ok (some (PVal.vrmfD v1 v2 v3 v4)) := by
      rw [parseVrmf_eq, if_pos hlen, hv1, hv2, hv3, hv4]
    exact ⟨_, parseLine_of_vrmf_ok line _ h8 hv,
      getKey_recordOf_vrmf _ _ _ _ _ _ _ _ _⟩
  · intro hlen hfail
    have hv : parseVrmf (fieldAt line 2) =
        .error "invalid literal for int() with base 10" := by
      rw [parseVrmf_eq, if_pos hlen]
      exact vrmf_match_error _ _ _ _ hfail
    exact ⟨_, parseLine_of_vrmf_error line _ h8 hv⟩

/-- Witness for C2 (amended) on three concrete lines: a one-segment
level, a parseable four-segment level, and a faulting four-segment
level. -/
theorem c2_vrmf_from_level_witness :
    (∃ r, parseLine ":::::::" = .ok (some r) ∧ getKey "vrmf" r = none)
    ∧ (∃ r, parseLine "a:b:7.2.3.0:::::" = .ok (some r) ∧
        getKey "vrmf" r = some (PVal.vrmfD 7 2 3 0))
    ∧ (∃ e, parseLine "a:b:1.2.3.x:::::" = .error e) :=
  ⟨(c2_vrmf_from_level ":::::::" (by decide)).1 (by decide),
   (c2_vrmf_from_level "a:b:7.2.3.0:::::" (by decide)).2.1 (by decide)
     7 2 3 0 (by decide) (by decide) (by decide) (by decide),
   (c2_vrmf_from_level "a:b:1.2.3.x:::::" (by decide)).2.2 (by decide)
     (by decide)⟩

/-- C5 counterexample: the code tests Python truthiness, not "is set".
With `path` set to the empty string the `-R` flag is omitted, and with
`bundle` set to the empty string the code falls through to the patterns;
in both cases `buildCmd` differs from the claim's builder
`buildCmdSpec`. -/
theorem c5_counterexample :
    buildCmd "lslpp" ⟨none, none, some "", false⟩ = ["lslpp", "-lacq", "all"]
    ∧ buildCmdSpec "lslpp" ⟨none, none, some "", false⟩ =
        ["lslpp", "-lacq", "-R", "", "all"]
    ∧ buildCmd "lslpp" ⟨none, none, some "", false⟩ ≠
        buildCmdSpec "lslpp" ⟨none, none, some "", false⟩
    ∧ buildCmd "lslpp" ⟨some ["bos.rte"], some "", none, false⟩ =
        ["lslpp", "-lacq", "bos.rte"]
    ∧ buildCmdSpec "lslpp" ⟨some ["bos.rte"], some "", none, false⟩ =
        ["lslpp", "-lacq", "-b", ""]
    ∧ buildCmd "lslpp" ⟨some ["bos.rte"], some "", none, false⟩ ≠
        buildCmdSpec "lslpp" ⟨some ["bos.rte"], some "", none, false⟩ := by
  decide

/-- C5 (amended): the argument list is the binary and the fixed listing
flags, then `-I` if `baseLevelsOnly`, then `-R` and the path if
`rootPath` is supplied non-empty, then the bundle flag and name if
`bundle` is supplied non-empty, otherwise each pattern in order if
`patterns` is supplied non-empty, otherwise the literal `all`. -/
theorem c5_cmd_order (bin : String) (p : Params) :
    buildCmd bin p =
      [bin, "-lacq"]
      ++ (if p.base_levels_only then ["-I"] else [])
      ++ (match p.path with
          | some pa => if pa = "" then [] else ["-R", pa]
          | none => [])
      ++ selectorArgs p := by
  rcases p with ⟨fs, b, pa, bl⟩
  simp only [buildCmd, selectorArgs, patternArgs, truthyStr, truthyList]
  rcases pa with _ | pa <;> rcases b with _ | b <;> rcases fs with _ | fs <;>
    rcases bl with _ | _ <;>
    simp [Bool.not_eq_true', beq_iff_eq, List.isEmpty_iff,
      List.append_assoc] <;>
    first
      | rfl
      | (by_cases hpa : pa = "" <;> by_cases hb : b = "" <;>
          by_cases hfs : fs = [] <;> simp [hpa, hb, hfs])
      | (by_cases hpa : pa = "" <;> by_cases hb : b = "" <;> simp [hpa, hb])
      | (by_cases hpa : pa = "" <;> by_cases hfs : fs = [] <;>
          simp [hpa, hfs])
      | (by_cases hb : b = "" <;> by_cases hfs : fs = [] <;> simp [hb, hfs])
      | (by_cases hpa : pa = "" <;> simp [hpa])
      | (by_cases hb : b = "" <;> simp [hb])
      | (by_cases hfs : fs = [] <;> simp [hfs])

end LppFacts
